import Mathlib

/-!
Verification of the apply-engine specification of the apps-cli-plugin
`workload apply` command against the source in `pkg/commands/workload_tree.go`
(the `WorkloadApplyOptions.Validate` / `WorkloadApplyOptions.Exec` functions)
and the behaviour pinned down by its test suite.

The embedding follows the Go source closely.  Helper functions of the
repository that are not part of the provided sources (the workload model's
`Merge`, the `Update`/`Create` consent helpers, the wait workers, the local
source proxy helpers) are modelled from the specification document; each such
definition carries a doc comment saying so.
-/

namespace ApplyEngine

/-! ## Data model -/

/-- A status condition of a workload (`metav1.Condition` restricted to the
fields the apply engine reads).  `lastTransitionTime` is nanoseconds since the
epoch; `0` is the zero time. -/
structure WCondition where
  condType : String
  condStatus : String
  lastTransitionTime : Nat
  message : String
deriving DecidableEq

/-- The workload source (`spec.source`): a git location or an image
reference.  Exclusivity is enforced by the sum type (invariant I1). -/
inductive Source where
  | git (url : String) (branch : String)
  | image (ref : String)
deriving DecidableEq

/-- The structured value of the privileged `maven` param. -/
structure Maven where
  artifactId : String
  groupId : String
  version : String
  mtype : Option String
deriving DecidableEq

/-- A param value: either the structured maven value or an opaque literal. -/
inductive PValue where
  | maven (m : Maven)
  | lit (s : String)
deriving DecidableEq

/-- A named workload param (`spec.params` entry). -/
structure Param where
  pname : String
  value : PValue
deriving DecidableEq

/-- The workload resource, restricted to the fields the claims touch.
`annots` are the metadata annotations, `conds` the status conditions. -/
structure Workload where
  wname : String
  wns : String
  annots : List (String × String)
  labels : List (String × String)
  source : Option Source
  params : List Param
  conds : List WCondition
deriving DecidableEq

/-- The empty workload (`&Workload{}` in Go). -/
def emptyWorkload : Workload :=
  { wname := "", wns := "", annots := [], labels := [], source := none,
    params := [], conds := [] }

/-! ## String-keyed map operations

Go metadata maps are unordered; the canonical serializer sorts them, so a
canonical update may be represented as remove-then-append. -/

/-- Look up a key in an association list. -/
def lookupKV : List (String × String) → String → Option String
  | [], _ => none
  | p :: rest, k => if p.1 = k then some p.2 else lookupKV rest k

/-- Remove a key from an association list. -/
def removeKV (m : List (String × String)) (k : String) : List (String × String) :=
  m.filter (fun p => decide (p.1 ≠ k))

/-- Set a key in an association list (canonical form: remove then append). -/
def setKV (m : List (String × String)) (k v : String) : List (String × String) :=
  removeKV m k ++ [(k, v)]

/-- Look up a param by name. -/
def lookupParam : List Param → String → Option PValue
  | [], _ => none
  | p :: rest, n => if p.pname = n then some p.value else lookupParam rest n

/-- Set a param by name (keyed left-join entry overwrite). -/
def setParam (ps : List Param) (p : Param) : List Param :=
  ps.filter (fun q => decide (q.pname ≠ p.pname)) ++ [p]

/-! ## Command options and cluster environment -/

/-- The fields of `WorkloadApplyOptions` (embedding `WorkloadOptions`) that the
claims exercise.  `nsChanged` models `cmd.Flags().Changed("namespace")`,
`timeoutStash` models the `WorkloadTimeoutStashKey` context value. -/
structure WorkloadApplyOptions where
  name : String
  nsVal : String
  nsChanged : Bool
  filePath : String
  updateStrategy : String
  timeoutStash : Option String
  yes : Bool
  output : String
  dryRun : Bool
  wait : Bool
  tail : Bool
  tailTimestamps : Bool
  waitTimeout : String
  localPath : String
  gitRepo : String
  gitBranch : String
  imageFlag : String
  mavenArtifact : String
  mavenVersion : String
  mavenGroup : String
  mavenType : String
  paramsYaml : List Param
deriving DecidableEq

/-- The abstract cluster / environment the command interacts with: the result
of the initial Get, induced failures of the API verbs, the stream of watch
events delivered during the wait phase, the reference the local source proxy
publishes, and the resource returned by the final refetch. -/
structure Cluster where
  current : Option Workload
  getFails : Bool
  nsExists : Bool
  createFails : Bool
  updateConflict : Bool
  updateFails : Bool
  watcherFails : Bool
  lspHealthy : Bool
  publishedRef : String
  events : List Workload
  refetched : Workload
deriving DecidableEq

/-- Requests issued to the cluster API. -/
inductive Request where
  | getWorkload (ns nm : String)
  | createReq (w : Workload)
  | updateReq (w : Workload)
deriving DecidableEq

/-- A line of user-visible output.  One constructor per message family so
that distinct messages are distinguished structurally; `LogLine.render` maps
each to its literal text. -/
inductive LogLine where
  | strategyWarning
  | unchanged
  | invalidInput
  | mavenNotice
  | skipping (nm : String)
  | waitingPrompt (nm : String)
  | readyPrompt (nm : String)
  | createDiffHeader
  | updateDiffHeader
  | createdMsg (nm : String)
  | updatedMsg (nm : String)
  | surveyPrompt (q a : String)
  | waitErrStatusChange (msg : String)
  | waitErrReady (msg : String)
  | serialized (w : Workload)
  | dryRunOut (w : Workload)
deriving DecidableEq

/-- The literal text of each output line (diff bodies and the YAML/JSON
serialization are produced by out-of-scope libraries and are represented by
their identifying first line / a marker). -/
def LogLine.render : LogLine → String
  | .strategyWarning => "WARNING: Configuration file update strategy is changing. By default, provided configuration files will replace rather than merge existing configuration. The change will take place in the January 2024 TAP release (use \"--update-strategy\" to control strategy explicitly)."
  | .unchanged => "Workload is unchanged, skipping update"
  | .invalidInput => "invalid input (not y, n, yes, or no)"
  | .mavenNotice => "NOTICE: Maven configuration flags have overwritten values provided by \"--params-yaml\"."
  | .skipping nm => "Skipping workload \"" ++ nm ++ "\""
  | .waitingPrompt nm => "Waiting for workload \"" ++ nm ++ "\" to become ready..."
  | .readyPrompt nm => "Workload \"" ++ nm ++ "\" is ready"
  | .createDiffHeader => "Create workload:"
  | .updateDiffHeader => "Update workload:"
  | .createdMsg nm => "Created workload \"" ++ nm ++ "\""
  | .updatedMsg nm => "Updated workload \"" ++ nm ++ "\""
  | .surveyPrompt q a => q ++ a
  | .waitErrStatusChange msg => msg
  | .waitErrReady msg => msg
  | .serialized w => "serialized workload " ++ w.wname
  | .dryRunOut w => "dry run " ++ w.wname

/-- Validation failure kinds (`validation.FieldErrors` entries). -/
inductive FieldError where
  | missingField (flag : String)
  | enumInvalidValue (value : String) (flag : String) (allowed : List String)
  | invalidValue (value : String) (flag : String)
deriving DecidableEq

/-- Errors returned from `Exec`: either aggregated field errors or a plain
error message. -/
inductive ExecErr where
  | fieldErrs (errs : List FieldError)
  | message (msg : String)
deriving DecidableEq

/-- The observable outcome of one `Exec` run: output lines, cluster requests
issued, and the returned error (`none` = success, exit code 0). -/
structure ExecResult where
  log : List LogLine
  reqs : List Request
  err : Option ExecErr
deriving DecidableEq

/-! ## Message literals used in errors -/

def statusChangeErrHead : String := "Error waiting for status change: "

def readyCondErrHead : String := "Error waiting for ready condition: "

def timeoutMsg (d nm : String) : String :=
  "timeout after " ++ d ++ " waiting for \"" ++ nm ++ "\" to become ready"

def watcherFailMsg : String := "failed to create watcher"

def readyFalseMsg (m : String) : String := "Failed to become ready: " ++ m

def conflictUpdatingMsg : String :=
  "conflict updating workload, the object was modified by another user; please run the update command again"

def createPromptQ : String := "Do you want to create this workload? [yN]: "

def updatePromptQ (nm : String) : String :=
  "Really update the workload \"" ++ nm ++ "\"? [yN]: "

/-! ## Flag name constants -/

def FilePathFlagName : String := "--file"

def NamespaceFlagName : String := "--namespace"

def UpdateStrategyFlagName : String := "--update-strategy"

def NameArgumentName : String := "name"

def lspAnnName : String := "local-source-proxy.apps.tanzu.vmware.com"

def mergeUpdateStrategy : String := "merge"

def replaceUpdateStrategy : String := "replace"

/-! ## Validation (`WorkloadApplyOptions.Validate`) -/

/-- Modelled from the spec: `validation.Enum` returns an enum-invalid-value
field error when the value is not in the allowed list (the helper itself is
outside the provided sources; its behaviour is pinned by the validate tests). -/
def enumValidation (value flag : String) (allowed : List String) : List FieldError :=
  if value ∈ allowed then [] else [.enumInvalidValue value flag allowed]

/-- The update-strategy specific checks of `WorkloadApplyOptions.Validate`
(workload_tree.go lines 419-424): they run only when the strategy value is
non-empty AND the flag was changed on the command line. -/
def applyStrategyValidation (strategy filePath : String) (strategyChanged : Bool) :
    List FieldError :=
  if strategy ≠ "" ∧ strategyChanged = true then
    (if filePath = "" then [FieldError.missingField FilePathFlagName] else []) ++
    enumValidation strategy UpdateStrategyFlagName [mergeUpdateStrategy, replaceUpdateStrategy]
  else []

/-- `WorkloadApplyOptions.Validate`: the embedded `WorkloadOptions.Validate`
errors (abstract, passed as `baseErrs`, that function is outside the provided
sources) followed by the strategy checks. -/
def workloadApplyValidate (baseErrs : List FieldError) (strategy filePath : String)
    (strategyChanged : Bool) : List FieldError :=
  baseErrs ++ applyStrategyValidation strategy filePath strategyChanged

/-! ## Building the proposed resource -/

/-- Modelled from the spec (§4.1 merge semantics): `Workload.Merge` — labels
and annotations are unioned with the incoming value overwriting on key
conflict, an incoming source overwrites, keyed params are left-joined with
incoming entries overwriting.  The function itself lives in the cartographer
API package, outside the provided sources. -/
def Workload.merge (w incoming : Workload) : Workload :=
  { w with
    labels := incoming.labels.foldl (fun acc p => setKV acc p.1 p.2) w.labels,
    annots := incoming.annots.foldl (fun acc p => setKV acc p.1 p.2) w.annots,
    source := match incoming.source with
      | some s => some s
      | none => w.source,
    params := incoming.params.foldl (fun acc p => setParam acc p) w.params }

/-- Modelled from the spec (§4.1 replace semantics): `ReplaceMetadata` carries
over only system-populated metadata (resourceVersion, uid, creationTimestamp,
managedFields, generation), none of which is part of this model, so the
workload is returned unchanged. -/
def Workload.replaceMetadata (w : Workload) (_current : Option Workload) : Workload :=
  w

/-- The workload name used for the apply: the file's `metadata.name` fills it
exactly when the positional argument is absent (workload_tree.go 440-442). -/
def resolvedName (o : WorkloadApplyOptions) (fileW : Workload) : String :=
  if o.filePath ≠ "" ∧ o.name = "" then fileW.wname else o.name

/-- The target namespace: the file's `metadata.namespace` fills it when it is
non-empty and `--namespace` was not explicitly set (workload_tree.go 443-445). -/
def resolvedNs (o : WorkloadApplyOptions) (fileW : Workload) : String :=
  if o.filePath ≠ "" ∧ fileW.wns ≠ "" ∧ o.nsChanged = false then fileW.wns else o.nsVal

/-- The base resource before flag application (workload_tree.go 460-499):
start from the cluster copy (or empty), merge or replace with the file
document according to the strategy, then force the final identity. -/
def proposedWorkloadBase (o : WorkloadApplyOptions) (fileW : Workload)
    (current : Option Workload) (finalName finalNs : String) : Workload :=
  let start := match current with
    | some cur => cur
    | none => emptyWorkload
  let fw := if o.filePath = "" then emptyWorkload else fileW
  let w :=
    if o.updateStrategy = mergeUpdateStrategy then start.merge fw
    else if o.updateStrategy = replaceUpdateStrategy then Workload.replaceMetadata fw current
    else start
  { w with wname := finalName, wns := finalNs }

/-- Whether any dedicated Maven flag was given. -/
abbrev mavenFlagsPresent (o : WorkloadApplyOptions) : Prop :=
  o.mavenArtifact ≠ "" ∨ o.mavenVersion ≠ "" ∨ o.mavenGroup ≠ "" ∨ o.mavenType ≠ ""

/-- The maven value the dedicated flags overlay: the existing `maven` param
(from `--params-yaml` or the cluster copy) or the empty value. -/
def baseMavenOf (w : Workload) : Maven :=
  match lookupParam w.params "maven" with
  | some (.maven m) => m
  | _ => { artifactId := "", groupId := "", version := "", mtype := none }

/-- Modelled from the spec (§4.1): the maven param composed from the dedicated
flags; each non-empty flag overwrites the corresponding field of the base. -/
def composedMaven (o : WorkloadApplyOptions) (base : Maven) : Maven :=
  { artifactId := if o.mavenArtifact ≠ "" then o.mavenArtifact else base.artifactId,
    groupId := if o.mavenGroup ≠ "" then o.mavenGroup else base.groupId,
    version := if o.mavenVersion ≠ "" then o.mavenVersion else base.version,
    mtype := if o.mavenType ≠ "" then some o.mavenType else base.mtype }

/-- Modelled from the spec (§4.4 step 4): `ApplyOptionsToWorkload` — apply the
`--params-yaml` entries, then the dedicated Maven flags (overwriting any
`maven` entry and flagging the user-facing notice when `--params-yaml`
provided one), then the git / image source flags.  The Boolean result is
whether the Maven-overwrite notice must be emitted. -/
def applyOptionsToWorkload (o : WorkloadApplyOptions) (w : Workload) : Workload × Bool :=
  let w1 := o.paramsYaml.foldl (fun acc p => { acc with params := setParam acc.params p }) w
  let yamlHadMaven := o.paramsYaml.any (fun p => p.pname == "maven")
  let step2 : Workload × Bool :=
    if mavenFlagsPresent o then
      ({ w1 with params := setParam w1.params ⟨"maven", .maven (composedMaven o (baseMavenOf w1))⟩ },
       yamlHadMaven)
    else (w1, false)
  let w3 := if o.gitRepo ≠ "" then { step2.1 with source := some (.git o.gitRepo o.gitBranch) }
            else step2.1
  let w4 := if o.imageFlag ≠ "" then { w3 with source := some (.image o.imageFlag) } else w3
  (w4, step2.2)

/-- Modelled from the spec (§4.3): `PublishLocalSource` — when `--local-path`
is given the directory is published through the LSP and `spec.source` is
rewritten to the published image reference. -/
def publishLocalSource (o : WorkloadApplyOptions) (ref : String) (w : Workload) : Workload :=
  if o.localPath ≠ "" then { w with source := some (.image ref) } else w

/-- Whether this invocation specifies a (new) source for the workload through
flags or through the file document. -/
abbrev specifiesSource (o : WorkloadApplyOptions) (fileW : Workload) : Prop :=
  o.gitRepo ≠ "" ∨ o.imageFlag ≠ "" ∨
    (o.filePath ≠ "" ∧ (fileW.source.isSome = true ∨ o.updateStrategy = replaceUpdateStrategy))

/-- Modelled from the spec (§4.3, invariant I6): `ManageLocalSourceProxyAnnotation`
(the function itself is outside the provided sources) — publishing through the
LSP sets the `local-source-proxy.apps.tanzu.vmware.com` annotation to the
published reference; an annotation inherited from the cluster copy is kept
when nothing changes the source (pinned by the "update using lsp from file
with no source" test); otherwise — switching away from LSP, or an annotation
smuggled in via the file (pinned by the "without adding lsp annotation"
tests) — the annotation is stripped. -/
def manageLSPAnnFor (o : WorkloadApplyOptions) (fileW : Workload)
    (current : Option Workload) (ref : String) (w : Workload) : Workload :=
  if o.localPath ≠ "" then { w with annots := setKV w.annots lspAnnName ref }
  else
    match current.bind (fun c => lookupKV c.annots lspAnnName) with
    | some v =>
      if ¬ specifiesSource o fileW ∧ o.updateStrategy = mergeUpdateStrategy then
        { w with annots := setKV w.annots lspAnnName v }
      else { w with annots := removeKV w.annots lspAnnName }
    | none => { w with annots := removeKV w.annots lspAnnName }

/-- The resource actually submitted to the cluster: base (merge/replace +
identity) → flag application → local source publish → LSP annotation
management, in the order of `WorkloadApplyOptions.Exec`. -/
def proposedWorkload (o : WorkloadApplyOptions) (fileW : Workload)
    (current : Option Workload) (ref : String) (finalName finalNs : String) : Workload :=
  let w0 := proposedWorkloadBase o fileW current finalName finalNs
  let w1 := (applyOptionsToWorkload o w0).1
  let w2 := publishLocalSource o ref w1
  manageLSPAnnFor o fileW current ref w2

/-- Whether the Maven-overwrite notice fires for this invocation. -/
def mavenNoticeNeeded (o : WorkloadApplyOptions) (fileW : Workload)
    (current : Option Workload) (finalName finalNs : String) : Bool :=
  (applyOptionsToWorkload o (proposedWorkloadBase o fileW current finalName finalNs)).2

/-- Invariant I6: the LSP annotation is present only when the source is the
LSP-published image it names. -/
def lspConsistent (w : Workload) : Prop :=
  ∀ v, lookupKV w.annots lspAnnName = some v → w.source = some (.image v)

/-! ## Wait workers

`getStatusChangeWorker`, `getReadyConditionWorker` and `raceWithTimeout` are
outside the provided sources; they are modelled from spec §4.6 and the wait
timeout tests. -/

/-- The `Ready` condition of a workload status. -/
def readyCondOf (w : Workload) : Option WCondition :=
  w.conds.find? (fun c => c.condType == "Ready")

/-- Modelled from the spec (§4.6 item 1): the status-change worker completes
on an observed workload when (a) some condition is `True` with a
`lastTransitionTime` strictly greater than the one of the `Ready` condition
snapshotted from `current` at submission time, or (b) the snapshot had no
`Ready` condition and conditions have appeared. -/
def statusChangeSatisfied (snapshot observed : Workload) : Bool :=
  match readyCondOf snapshot with
  | some c => observed.conds.any
      (fun oc => oc.condStatus == "True" && decide (c.lastTransitionTime < oc.lastTransitionTime))
  | none => !observed.conds.isEmpty

/-- The effective timeout of the status-change race: the stashed
`WorkloadTimeoutStashKey` value when present, else `--wait-timeout`
(workload_tree.go 575-581). -/
def effTimeout (o : WorkloadApplyOptions) : String :=
  match o.timeoutStash with
  | some s => s
  | none => o.waitTimeout

/-- Modelled from the spec (§4.6): the status-change race — a watcher failure
or a timeout produce an error prefixed `Error waiting for status change: `;
otherwise the worker completes when some event satisfies the predicate. -/
def raceStatusChange (snapshot : Workload) (cl : Cluster) (o : WorkloadApplyOptions)
    (nm : String) : Option String :=
  if cl.watcherFails then some (statusChangeErrHead ++ watcherFailMsg)
  else if cl.events.any (fun e => statusChangeSatisfied snapshot e) then none
  else some (statusChangeErrHead ++ timeoutMsg (effTimeout o) nm)

/-- The verdict of the readiness worker over the event stream: `some none` =
ready, `some (some m)` = terminal failure, `none` = no verdict (timeout). -/
def readyVerdictOf : List Workload → Option (Option String)
  | [] => none
  | e :: rest =>
    match readyCondOf e with
    | some c =>
      if c.condStatus == "True" then some none
      else if c.condStatus == "False" then some (some (readyFalseMsg c.message))
      else readyVerdictOf rest
    | none => readyVerdictOf rest

/-- Modelled from the spec (§4.6 items 2 and 4): the readiness race — errors
are prefixed `Error waiting for ready condition: `. -/
def raceReady (cl : Cluster) (o : WorkloadApplyOptions) (nm : String) : Option String :=
  if cl.watcherFails then some (readyCondErrHead ++ watcherFailMsg)
  else
    match readyVerdictOf cl.events with
    | some none => none
    | some (some m) => some (readyCondErrHead ++ m)
    | none => some (readyCondErrHead ++ timeoutMsg o.waitTimeout nm)

/-! ## Consent survey -/

/-- ASCII lower-casing of one character. -/
def lowerChar (c : Char) : Char :=
  if 'A' ≤ c ∧ c ≤ 'Z' then Char.ofNat (c.toNat + 32) else c

/-- ASCII lower-casing of a string (the console answers are ASCII). -/
def lowerStr (s : String) : String := String.mk (s.data.map lowerChar)

/-- Whether a console answer accepts (case-insensitive `y` / `yes`). -/
def answersYes (s : String) : Bool := lowerStr s == "y" || lowerStr s == "yes"

/-- Whether a console answer rejects (case-insensitive `n` / `no`). -/
def answersNo (s : String) : Bool := lowerStr s == "n" || lowerStr s == "no"

/-- Modelled from the spec (§4.5): the consent prompt loop — any answer other
than y/yes/n/no prints `invalid input (not y, n, yes, or no)` and re-prompts;
`none` means the console input was exhausted without a decision. -/
def runSurvey (q : String) : List String → List LogLine × Option Bool
  | [] => ([], none)
  | ans :: rest =>
    if answersYes ans then ([.surveyPrompt q ans], some true)
    else if answersNo ans then ([.surveyPrompt q ans], some false)
    else
      let r := runSurvey q rest
      (.surveyPrompt q ans :: .invalidInput :: r.1, r.2)

/-- The output produced by a run of invalid console answers: each one echoes
the prompt and the invalid-input message. -/
def badSurveyLog (q : String) : List String → List LogLine
  | [] => []
  | b :: r => .surveyPrompt q b :: .invalidInput :: badSurveyLog q r

/-! ## The Exec flow -/

/-- Whether prompts and progress output are shown: output not requested, or
requested without `--yes` (workload_tree.go 431). -/
abbrev shouldPrint (o : WorkloadApplyOptions) : Prop :=
  o.output = "" ∨ o.yes = false

/-- The tail of `Exec` (workload_tree.go 606-614): when `--output` is set the
applied workload is refetched from the cluster and printed; the command then
succeeds. -/
def stageOutput (o : WorkloadApplyOptions) (cl : Cluster) (finalName finalNs : String)
    (log : List LogLine) (reqs : List Request) : ExecResult :=
  if o.output = "" then { log := log, reqs := reqs, err := none }
  else { log := log ++ [.serialized cl.refetched],
         reqs := reqs ++ [.getWorkload finalNs finalName], err := none }

/-- The readiness half of the wait phase (workload_tree.go 588-604): on a
race error the non-zero path is taken only when `--output` is unset; on
success the ready prompt is printed when prompts are shown. -/
def stageWaitReady (o : WorkloadApplyOptions) (cl : Cluster) (finalName finalNs : String)
    (log : List LogLine) (reqs : List Request) : ExecResult :=
  match raceReady cl o finalName with
  | some m =>
    if o.output = "" then
      { log := log ++ [.waitErrReady m], reqs := reqs, err := some (.message m) }
    else stageOutput o cl finalName finalNs (log ++ [.waitErrReady m]) reqs
  | none =>
    stageOutput o cl finalName finalNs
      (log ++ (if shouldPrint o then [.readyPrompt finalName] else [])) reqs

/-- The wait phase (workload_tree.go 566-604): when updating an existing
workload the status-change race runs first and must complete before the
readiness worker is armed; a status-change error returns immediately when
`--output` is unset. -/
def stageWait (o : WorkloadApplyOptions) (cl : Cluster) (finalName finalNs : String)
    (current : Option Workload) (log : List LogLine) (reqs : List Request) : ExecResult :=
  if o.wait = true ∨ o.tail = true ∨ o.tailTimestamps = true then
    let log1 := log ++ (if shouldPrint o then [.waitingPrompt finalName] else [])
    match current with
    | some cur =>
      match raceStatusChange cur cl o finalName with
      | some m =>
        if o.output = "" then
          { log := log1 ++ [.waitErrStatusChange m], reqs := reqs, err := some (.message m) }
        else stageWaitReady o cl finalName finalNs (log1 ++ [.waitErrStatusChange m]) reqs
      | none => stageWaitReady o cl finalName finalNs log1 reqs
    | none => stageWaitReady o cl finalName finalNs log1 reqs
  else stageOutput o cl finalName finalNs log reqs

/-- The submit phase (workload_tree.go 530-564).  With prompts shown, the
`Create` / `Update` helpers (modelled from spec §4.5/§4.6 and the test suite:
diff header, unchanged-skip, consent survey, conflict mapping) run; with
`--output` combined with `--yes`, the request is issued directly. -/
def stageSubmit (o : WorkloadApplyOptions) (fileW : Workload) (cl : Cluster)
    (console : List String) (finalName finalNs : String) (current : Option Workload)
    (reqs : List Request) : ExecResult :=
  let proposed := proposedWorkload o fileW current cl.publishedRef finalName finalNs
  let notice := mavenNoticeNeeded o fileW current finalName finalNs
  if shouldPrint o then
    match current with
    | none =>
      let head := [LogLine.createDiffHeader] ++ (if notice then [LogLine.mavenNotice] else [])
      let dec := if o.yes = true then ([], some true) else runSurvey createPromptQ console
      match dec.2 with
      | some d =>
        if d then
          if cl.createFails then
            { log := head ++ dec.1, reqs := reqs ++ [.createReq proposed],
              err := some (.message "create failed") }
          else
            stageWait o cl finalName finalNs current
              (head ++ dec.1 ++ [.createdMsg finalName]) (reqs ++ [.createReq proposed])
        else
          { log := head ++ dec.1 ++ [.skipping finalName], reqs := reqs, err := none }
      | none =>
        { log := head ++ dec.1, reqs := reqs, err := some (.message "EOF") }
    | some cur =>
      if proposed = cur then { log := [.unchanged], reqs := reqs, err := none }
      else
        let head := [LogLine.updateDiffHeader] ++ (if notice then [LogLine.mavenNotice] else [])
        let dec := if o.yes = true then ([], some true)
                   else runSurvey (updatePromptQ finalName) console
        match dec.2 with
        | some d =>
          if d then
            if cl.updateConflict then
              { log := head ++ dec.1, reqs := reqs ++ [.updateReq proposed],
                err := some (.message conflictUpdatingMsg) }
            else if cl.updateFails then
              { log := head ++ dec.1, reqs := reqs ++ [.updateReq proposed],
                err := some (.message "update failed") }
            else
              stageWait o cl finalName finalNs current
                (head ++ dec.1 ++ [.updatedMsg finalName]) (reqs ++ [.updateReq proposed])
          else
            { log := head ++ dec.1 ++ [.skipping finalName], reqs := reqs, err := none }
        | none =>
          { log := head ++ dec.1, reqs := reqs, err := some (.message "EOF") }
  else
    match current with
    | none =>
      if cl.createFails then
        { log := [], reqs := reqs ++ [.createReq proposed], err := some (.message "create failed") }
      else stageWait o cl finalName finalNs current [] (reqs ++ [.createReq proposed])
    | some _ =>
      if cl.updateConflict then
        { log := [], reqs := reqs ++ [.updateReq proposed],
          err := some (.message conflictUpdatingMsg) }
      else if cl.updateFails then
        { log := [], reqs := reqs ++ [.updateReq proposed], err := some (.message "update failed") }
      else stageWait o cl finalName finalNs current [] (reqs ++ [.updateReq proposed])

/-- After the initial Get (workload_tree.go 476-527): dry run short-circuits;
an unhealthy LSP aborts when a local path is to be published; otherwise the
submit phase runs. -/
def stageAfterGet (o : WorkloadApplyOptions) (fileW : Workload) (cl : Cluster)
    (console : List String) (finalName finalNs : String) (current : Option Workload)
    (reqs : List Request) : ExecResult :=
  if o.dryRun = true then
    { log := [.dryRunOut (proposedWorkload o fileW current cl.publishedRef finalName finalNs)],
      reqs := reqs, err := none }
  else if o.localPath ≠ "" ∧ cl.lspHealthy = false then
    { log := [], reqs := reqs, err := some (.message "local source proxy unhealthy") }
  else stageSubmit o fileW cl console finalName finalNs current reqs

/-- `WorkloadApplyOptions.Exec` minus the strategy-change warning: load the
file, resolve identity, require name and namespace before any cluster call,
fetch the current workload (distinguishing NotFound, which triggers the
namespace existence check), and continue. -/
def execApplyCore (o : WorkloadApplyOptions) (fileW : Workload) (fileLoadOk : Bool)
    (cl : Cluster) (console : List String) : ExecResult :=
  if o.filePath ≠ "" ∧ fileLoadOk = false then
    { log := [], reqs := [], err := some (.message "unable to load file") }
  else
    let finalName := resolvedName o fileW
    let finalNs := resolvedNs o fileW
    let idErrs := (if finalName = "" then [FieldError.missingField NameArgumentName] else []) ++
                  (if finalNs = "" then [FieldError.missingField NamespaceFlagName] else [])
    if idErrs ≠ [] then { log := [], reqs := [], err := some (.fieldErrs idErrs) }
    else
      let reqs := [Request.getWorkload finalNs finalName]
      if cl.getFails then { log := [], reqs := reqs, err := some (.message "get failed") }
      else
        match cl.current with
        | none =>
          if cl.nsExists = false then
            { log := [], reqs := reqs,
              err := some (.message ("namespace " ++ finalNs ++ " not found")) }
          else stageAfterGet o fileW cl console finalName finalNs none reqs
        | some cur => stageAfterGet o fileW cl console finalName finalNs (some cur) reqs

/-- `WorkloadApplyOptions.Exec` (workload_tree.go 429-618).  The strategy
change advisory (line 435) is emitted through `PrintPromptWithEmoji`, which is
gated on `shouldPrint` — the gating of these print helpers is pinned by the
"create - output yaml with wait" test, whose expected output omits every
prompt line. -/
def execApply (o : WorkloadApplyOptions) (fileW : Workload) (fileLoadOk : Bool)
    (cl : Cluster) (console : List String) : ExecResult :=
  let core := execApplyCore o fileW fileLoadOk cl console
  { core with
    log := (if o.filePath ≠ "" ∧ shouldPrint o then [LogLine.strategyWarning] else []) ++ core.log }

/-! ## Concrete example inputs (mirroring the test suite fixtures) -/

/-- A flags-only invocation pre-approved with `--yes` against namespace
`default` (the `parent` fixture of the apply tests). -/
def exOpts : WorkloadApplyOptions :=
  { name := "my-workload", nsVal := "default", nsChanged := false, filePath := "",
    updateStrategy := "merge", timeoutStash := none, yes := true, output := "",
    dryRun := false, wait := false, tail := false, tailTimestamps := false,
    waitTimeout := "1ns", localPath := "", gitRepo := "", gitBranch := "",
    imageFlag := "", mavenArtifact := "", mavenVersion := "", mavenGroup := "",
    mavenType := "", paramsYaml := [] }

/-- The existing cluster workload with an image source (the `parent` fixture
with `spec.image: ubuntu:bionic`). -/
def exCur : Workload :=
  { wname := "my-workload", wns := "default", annots := [],
    labels := [("apps.tanzu.vmware.com/workload-type", "web")],
    source := some (.image "ubuntu:bionic"), params := [], conds := [] }

/-- `exCur` with a `Ready=True` condition whose transition time is the
pre-submit snapshot value. -/
def exCurReady : Workload :=
  { exCur with conds := [{ condType := "Ready", condStatus := "True",
                           lastTransitionTime := 5, message := "" }] }

/-- A watch event carrying the same `Ready=True` condition with an unchanged
transition time (the stale-ready scenario). -/
def exStaleEvent : Workload :=
  { exCur with conds := [{ condType := "Ready", condStatus := "True",
                           lastTransitionTime := 5, message := "" }] }

/-- A healthy cluster with an existing workload and no watch events. -/
def exCl : Cluster :=
  { current := some exCur, getFails := false, nsExists := true, createFails := false,
    updateConflict := false, updateFails := false, watcherFails := false,
    lspHealthy := true, publishedRef := "", events := [], refetched := exCur }

/-- A file document like `testdata/workload.yaml` (name `spring-petclinic`,
no namespace, git source). -/
def exFileW : Workload :=
  { wname := "spring-petclinic", wns := "", annots := [], labels := [],
    source := some (.git "https://github.com/spring-projects/spring-petclinic.git" "main"),
    params := [], conds := [] }

/-- Flags of the maven-priority test: all four dedicated Maven flags plus a
`maven` entry through `--params-yaml`. -/
def exOptsC4 : WorkloadApplyOptions :=
  { exOpts with
    mavenArtifact := "spring-petclinic"
    mavenVersion := "2.6.0"
    mavenGroup := "org.springframework.samples"
    mavenType := "jar"
    paramsYaml := [⟨"maven", .lit "from-params-yaml"⟩] }

/-- The healthy cluster without a pre-existing workload. -/
def exClCreate : Cluster := { exCl with current := none }

/-- A waited update switching the fixture to a git source. -/
def exOptsC1 : WorkloadApplyOptions :=
  { exOpts with wait := true, gitRepo := "my-repo.git", gitBranch := "main" }

/-- Cluster state of the stale-ready scenario: the ready fixture plus one
watch event with an unchanged transition time. -/
def exClC1 : Cluster := { exCl with current := some exCurReady, events := [exStaleEvent] }

/-- The snapshot `Ready` condition of `exCurReady`. -/
def exCondC1 : WCondition :=
  { condType := "Ready", condStatus := "True", lastTransitionTime := 5, message := "" }

/-- A waited create with `--output yaml --yes`. -/
def exOptsC8 : WorkloadApplyOptions :=
  { exOpts with wait := true, output := "yaml", gitRepo := "my-repo.git", gitBranch := "main" }

/-! ## Helper lemmas -/

/-- Setting a key makes it look up to the new value. -/
theorem lookupKV_setKV_self (m : List (String × String)) (k v : String) :
    lookupKV (setKV m k v) k = some v := by
  induction m with
  | nil => simp [setKV, removeKV, lookupKV]
  | cons p rest ih =>
    by_cases hp : p.1 = k
    · simpa [setKV, removeKV, List.filter_cons, hp] using ih
    · simp only [setKV, removeKV, List.filter_cons] at ih ⊢
      simp only [hp, decide_not, decide_eq_true_eq]
      simp [lookupKV, hp]
      simpa [setKV, removeKV] using ih

/-- Removing a key makes it look up to nothing. -/
theorem lookupKV_removeKV_self (m : List (String × String)) (k : String) :
    lookupKV (removeKV m k) k = none := by
  induction m with
  | nil => simp [removeKV, lookupKV]
  | cons p rest ih =>
    by_cases hp : p.1 = k
    · simpa [removeKV, List.filter_cons, hp] using ih
    · simp only [removeKV, List.filter_cons] at ih ⊢
      simp [lookupKV, hp]
      simpa [removeKV] using ih

/-- Setting a param makes it look up to the new value. -/
theorem lookupParam_setParam_self (ps : List Param) (p : Param) :
    lookupParam (setParam ps p) p.pname = some p.value := by
  induction ps with
  | nil => simp [setParam, lookupParam]
  | cons q rest ih =>
    by_cases hq : q.pname = p.pname
    · simpa [setParam, List.filter_cons, hq] using ih
    · simp only [setParam, List.filter_cons] at ih ⊢
      simp [lookupParam, hq, Ne.symm hq]
      simpa [setParam] using ih

/-! ## Claim C10 -/

/-- Claim C10, counterexample: with `--update-strategy` explicitly set on the
command line to the empty value (`--update-strategy=`), the flag counts as
changed but the guard `opts.UpdateStrategy != ""` skips both checks, so no
MissingField error for `--file` and no enum error are produced, contradicting
the claim. -/
theorem c10_counterexample :
    applyStrategyValidation "" "" true = [] ∧
    FieldError.missingField FilePathFlagName ∉ workloadApplyValidate [] "" "" true ∧
    FieldError.enumInvalidValue "" UpdateStrategyFlagName
      [mergeUpdateStrategy, replaceUpdateStrategy] ∉ workloadApplyValidate [] "" "" true := by
  decide

/-- Claim C10 (amended): when `--update-strategy` is explicitly set on the
command line to a NON-EMPTY value, `Validate` returns a MissingField error for
`--file` whenever no file path is provided, and an enum-invalid-value error
whenever the value is outside merge/replace; when the flag is unchanged,
neither check is applied. -/
theorem c10_update_strategy_validate (baseErrs : List FieldError)
    (strategy filePath : String) (hne : strategy ≠ "") :
    (filePath = "" →
      FieldError.missingField FilePathFlagName ∈
        workloadApplyValidate baseErrs strategy filePath true) ∧
    (strategy ∉ [mergeUpdateStrategy, replaceUpdateStrategy] →
      FieldError.enumInvalidValue strategy UpdateStrategyFlagName
          [mergeUpdateStrategy, replaceUpdateStrategy] ∈
        workloadApplyValidate baseErrs strategy filePath true) ∧
    applyStrategyValidation strategy filePath false = [] := by
  refine ⟨?_, ?_, ?_⟩
  · intro hfp
    simp [workloadApplyValidate, applyStrategyValidation, hne, hfp]
  · intro hout
    simp [workloadApplyValidate, applyStrategyValidation, enumValidation, hne, hout]
  · simp [applyStrategyValidation]

/-- Claim C10 witness: concrete run of the amended theorem at strategy
`invalid` with no file path. -/
theorem c10_witness :
    ("" = "" →
      FieldError.missingField FilePathFlagName ∈
        workloadApplyValidate [] "invalid" "" true) ∧
    ("invalid" ∉ [mergeUpdateStrategy, replaceUpdateStrategy] →
      FieldError.enumInvalidValue "invalid" UpdateStrategyFlagName
          [mergeUpdateStrategy, replaceUpdateStrategy] ∈
        workloadApplyValidate [] "invalid" "" true) ∧
    applyStrategyValidation "invalid" "" false = [] :=
  c10_update_strategy_validate [] "invalid" "" (by decide)

/-! ## Claim C5 -/

/-- Claim C5: with a file input, the file's `metadata.name` is used exactly
when the positional NAME argument is absent; the file's `metadata.namespace`
is used exactly when `--namespace` was not explicitly set (and the file
provides one); and if neither layer supplies a name or namespace the apply
fails with MissingField errors before any cluster call. -/
theorem c5_file_identity_fill (o : WorkloadApplyOptions) (fileW : Workload)
    (cl : Cluster) (console : List String) (hf : o.filePath ≠ "") :
    (o.name = "" → resolvedName o fileW = fileW.wname) ∧
    (o.name ≠ "" → resolvedName o fileW = o.name) ∧
    (fileW.wns ≠ "" → o.nsChanged = false → resolvedNs o fileW = fileW.wns) ∧
    (o.nsChanged = true → resolvedNs o fileW = o.nsVal) ∧
    (resolvedName o fileW = "" ∨ resolvedNs o fileW = "" →
      (execApply o fileW true cl console).reqs = [] ∧
      (execApply o fileW true cl console).err = some (.fieldErrs
        ((if resolvedName o fileW = "" then [FieldError.missingField NameArgumentName] else []) ++
         (if resolvedNs o fileW = "" then [FieldError.missingField NamespaceFlagName] else [])))) := by
  refine ⟨?_, ?_, ?_, ?_, ?_⟩
  · intro h; simp [resolvedName, hf, h]
  · intro h; simp [resolvedName, h]
  · intro h1 h2; simp [resolvedNs, hf, h1, h2]
  · intro h; simp [resolvedNs, h]
  · intro h
    have hid : ((if resolvedName o fileW = "" then [FieldError.missingField NameArgumentName] else []) ++
        (if resolvedNs o fileW = "" then [FieldError.missingField NamespaceFlagName] else [])) ≠ [] := by
      rcases h with h | h <;> simp [h]
    constructor
    · simp [execApply, execApplyCore, hid]
    · simp [execApply, execApplyCore, hid]

/-- Claim C5 witness: a file carrying name `spring-petclinic` and no
namespace, applied with no positional argument and `--namespace` unchanged. -/
theorem c5_witness :
    (({ exOpts with filePath := "workload.yaml", name := "" } : WorkloadApplyOptions).name = "" →
      resolvedName { exOpts with filePath := "workload.yaml", name := "" } exFileW = exFileW.wname) ∧
    (({ exOpts with filePath := "workload.yaml", name := "" } : WorkloadApplyOptions).name ≠ "" →
      resolvedName { exOpts with filePath := "workload.yaml", name := "" } exFileW =
        ({ exOpts with filePath := "workload.yaml", name := "" } : WorkloadApplyOptions).name) ∧
    (exFileW.wns ≠ "" →
      ({ exOpts with filePath := "workload.yaml", name := "" } : WorkloadApplyOptions).nsChanged = false →
      resolvedNs { exOpts with filePath := "workload.yaml", name := "" } exFileW = exFileW.wns) ∧
    (({ exOpts with filePath := "workload.yaml", name := "" } : WorkloadApplyOptions).nsChanged = true →
      resolvedNs { exOpts with filePath := "workload.yaml", name := "" } exFileW =
        ({ exOpts with filePath := "workload.yaml", name := "" } : WorkloadApplyOptions).nsVal) ∧
    (resolvedName { exOpts with filePath := "workload.yaml", name := "" } exFileW = "" ∨
     resolvedNs { exOpts with filePath := "workload.yaml", name := "" } exFileW = "" →
      (execApply { exOpts with filePath := "workload.yaml", name := "" } exFileW true exCl []).reqs = [] ∧
      (execApply { exOpts with filePath := "workload.yaml", name := "" } exFileW true exCl []).err =
        some (.fieldErrs
          ((if resolvedName { exOpts with filePath := "workload.yaml", name := "" } exFileW = ""
            then [FieldError.missingField NameArgumentName] else []) ++
           (if resolvedNs { exOpts with filePath := "workload.yaml", name := "" } exFileW = ""
            then [FieldError.missingField NamespaceFlagName] else [])))) :=
  c5_file_identity_fill { exOpts with filePath := "workload.yaml", name := "" } exFileW exCl []
    (by decide)

/-! ## Path lemmas -/

/-- A flags-only invocation (no file) with a resolvable identity and a
successful Get against an existing workload reaches the submit stage. -/
theorem execApply_path_existing (o : WorkloadApplyOptions) (fileW : Workload)
    (ok : Bool) (cl : Cluster) (console : List String) (cur : Workload)
    (hf : o.filePath = "") (hn : o.name ≠ "") (hns : o.nsVal ≠ "")
    (hget : cl.getFails = false) (hcur : cl.current = some cur)
    (hdr : o.dryRun = false) (hlp : o.localPath = "") :
    execApply o fileW ok cl console =
      stageSubmit o fileW cl console o.name o.nsVal (some cur)
        [Request.getWorkload o.nsVal o.name] := by
  have h1 : resolvedName o fileW = o.name := by simp [resolvedName, hf]
  have h2 : resolvedNs o fileW = o.nsVal := by simp [resolvedNs, hf]
  simp [execApply, execApplyCore, stageAfterGet, h1, h2, hf, hn, hns, hget, hcur, hdr, hlp]

/-- A flags-only invocation with a resolvable identity, a NotFound Get and an
existing target namespace reaches the submit stage on the create side. -/
theorem execApply_path_create (o : WorkloadApplyOptions) (fileW : Workload)
    (ok : Bool) (cl : Cluster) (console : List String)
    (hf : o.filePath = "") (hn : o.name ≠ "") (hns : o.nsVal ≠ "")
    (hget : cl.getFails = false) (hcur : cl.current = none) (hnse : cl.nsExists = true)
    (hdr : o.dryRun = false) (hlp : o.localPath = "") :
    execApply o fileW ok cl console =
      stageSubmit o fileW cl console o.name o.nsVal none
        [Request.getWorkload o.nsVal o.name] := by
  have h1 : resolvedName o fileW = o.name := by simp [resolvedName, hf]
  have h2 : resolvedNs o fileW = o.nsVal := by simp [resolvedNs, hf]
  simp [execApply, execApplyCore, stageAfterGet, h1, h2, hf, hn, hns, hget, hcur, hnse, hdr, hlp]

/-! ## Claim C2 -/

/-- Claim C2, counterexample: with `--output yaml --yes` against an existing
workload whose proposed resource is identical to the cluster copy, `Exec`
takes the direct branch (workload_tree.go 552-563) and issues the Update
unconditionally — no unchanged-skip message, contradicting "for every apply
... no Update request is issued". -/
theorem c2_counterexample :
    Request.updateReq exCur ∈
      (execApply { exOpts with output := "yaml" } emptyWorkload true exCl []).reqs ∧
    LogLine.unchanged ∉
      (execApply { exOpts with output := "yaml" } emptyWorkload true exCl []).log ∧
    (execApply { exOpts with output := "yaml" } emptyWorkload true exCl []).err = none := by
  decide

/-- Claim C2 (amended): for every apply against an existing workload where
the proposed resource equals the cluster copy AND the prompt/diff path is
active (no `--output` combined with `--yes`), no Update request is issued,
the output contains `Workload is unchanged, skipping update`, and the command
succeeds.  (In the `--output` + `--yes` branch the update is submitted
unconditionally.) -/
theorem c2_unchanged_skips_update (o : WorkloadApplyOptions) (fileW : Workload)
    (cl : Cluster) (console : List String) (cur : Workload)
    (hf : o.filePath = "") (hn : o.name ≠ "") (hns : o.nsVal ≠ "")
    (hget : cl.getFails = false) (hcur : cl.current = some cur)
    (hdr : o.dryRun = false) (hlp : o.localPath = "")
    (hsp : shouldPrint o)
    (hnoop : proposedWorkload o fileW (some cur) cl.publishedRef o.name o.nsVal = cur) :
    (execApply o fileW true cl console).err = none ∧
    LogLine.unchanged ∈ (execApply o fileW true cl console).log ∧
    LogLine.unchanged.render = "Workload is unchanged, skipping update" ∧
    ∀ w, Request.updateReq w ∉ (execApply o fileW true cl console).reqs ∧
         Request.createReq w ∉ (execApply o fileW true cl console).reqs := by
  rw [execApply_path_existing o fileW true cl console cur hf hn hns hget hcur hdr hlp]
  simp [stageSubmit, hsp, hnoop, LogLine.render]

/-- Claim C2 witness: flags-only `--yes` apply of an unchanged workload. -/
theorem c2_witness :
    (execApply exOpts emptyWorkload true exCl []).err = none ∧
    LogLine.unchanged ∈ (execApply exOpts emptyWorkload true exCl []).log ∧
    LogLine.unchanged.render = "Workload is unchanged, skipping update" ∧
    ∀ w, Request.updateReq w ∉ (execApply exOpts emptyWorkload true exCl []).reqs ∧
         Request.createReq w ∉ (execApply exOpts emptyWorkload true exCl []).reqs :=
  c2_unchanged_skips_update exOpts emptyWorkload exCl [] exCur (by decide) (by decide)
    (by decide) (by decide) (by decide) (by decide) (by decide) (Or.inl (by decide)) (by decide)

/-! ## Claim C7 -/

/-- Claim C7, counterexample: with `--output yaml --yes`, a Conflict from the
Update is surfaced as the terminal error but NO diff is printed (the direct
branch of workload_tree.go 552-563 never renders a diff), contradicting "the
diff that would have been submitted is printed before the error". -/
theorem c7_counterexample :
    (execApply { exOpts with output := "yaml", gitRepo := "my-repo.git", gitBranch := "main" }
        emptyWorkload true { exCl with updateConflict := true } []).err =
      some (.message conflictUpdatingMsg) ∧
    LogLine.updateDiffHeader ∉
      (execApply { exOpts with output := "yaml", gitRepo := "my-repo.git", gitBranch := "main" }
        emptyWorkload true { exCl with updateConflict := true } []).log := by
  decide

/-- Claim C7 (amended): whenever the Update returns Conflict, the apply fails
with exactly `conflict updating workload, the object was modified by another
user; please run the update command again` and the update is not retried
(exactly one Update request); the diff is printed before the error whenever
the prompt/diff path is active (`--output` not combined with `--yes`). -/
theorem c7_conflict_update (o : WorkloadApplyOptions) (fileW : Workload)
    (cl : Cluster) (console : List String) (cur : Workload)
    (hf : o.filePath = "") (hn : o.name ≠ "") (hns : o.nsVal ≠ "")
    (hget : cl.getFails = false) (hcur : cl.current = some cur)
    (hdr : o.dryRun = false) (hlp : o.localPath = "")
    (hyes : o.yes = true) (hconf : cl.updateConflict = true)
    (hprop : proposedWorkload o fileW (some cur) cl.publishedRef o.name o.nsVal ≠ cur) :
    (execApply o fileW true cl console).err = some (.message conflictUpdatingMsg) ∧
    (execApply o fileW true cl console).reqs =
      [Request.getWorkload o.nsVal o.name,
       Request.updateReq (proposedWorkload o fileW (some cur) cl.publishedRef o.name o.nsVal)] ∧
    (o.output = "" → LogLine.updateDiffHeader ∈ (execApply o fileW true cl console).log) := by
  rw [execApply_path_existing o fileW true cl console cur hf hn hns hget hcur hdr hlp]
  by_cases hout : o.output = ""
  · have hsp : shouldPrint o := Or.inl hout
    simp [stageSubmit, hsp, hprop, hyes, hconf]
  · simp [stageSubmit, shouldPrint, hout, hyes, hconf]

/-- Claim C7 witness: conflict on a `--yes` update that changes the source to
git, without `--output`. -/
theorem c7_witness :
    (execApply { exOpts with gitRepo := "my-repo.git", gitBranch := "main" } emptyWorkload true
        { exCl with updateConflict := true } []).err = some (.message conflictUpdatingMsg) ∧
    (execApply { exOpts with gitRepo := "my-repo.git", gitBranch := "main" } emptyWorkload true
        { exCl with updateConflict := true } []).reqs =
      [Request.getWorkload
        ({ exOpts with gitRepo := "my-repo.git", gitBranch := "main" } : WorkloadApplyOptions).nsVal
        ({ exOpts with gitRepo := "my-repo.git", gitBranch := "main" } : WorkloadApplyOptions).name,
       Request.updateReq (proposedWorkload
        { exOpts with gitRepo := "my-repo.git", gitBranch := "main" } emptyWorkload (some exCur)
        ({ exCl with updateConflict := true } : Cluster).publishedRef
        ({ exOpts with gitRepo := "my-repo.git", gitBranch := "main" } : WorkloadApplyOptions).name
        ({ exOpts with gitRepo := "my-repo.git", gitBranch := "main" } : WorkloadApplyOptions).nsVal)] ∧
    (({ exOpts with gitRepo := "my-repo.git", gitBranch := "main" } : WorkloadApplyOptions).output = "" →
      LogLine.updateDiffHeader ∈
        (execApply { exOpts with gitRepo := "my-repo.git", gitBranch := "main" } emptyWorkload true
          { exCl with updateConflict := true } []).log) :=
  c7_conflict_update { exOpts with gitRepo := "my-repo.git", gitBranch := "main" } emptyWorkload
    { exCl with updateConflict := true } [] exCur (by decide) (by decide) (by decide) (by decide)
    (by decide) (by decide) (by decide) (by decide) (by decide) (by decide)

/-! ## Claim C6 -/

/-- A rejecting answer cannot also be an accepting one. -/
theorem answersNo_not_yes (s : String) (h : answersNo s = true) : answersYes s = false := by
  simp only [answersNo, Bool.or_eq_true, beq_iff_eq] at h
  rcases h with h | h <;> simp [answersYes, h]

/-- A survey run over invalid answers followed by a rejection echoes each
invalid answer with the invalid-input message and decides `false`. -/
theorem runSurvey_reject (q : String) (bad : List String) (ans : String)
    (hbad : ∀ b ∈ bad, answersYes b = false ∧ answersNo b = false)
    (hans : answersNo ans = true) :
    runSurvey q (bad ++ [ans]) =
      (badSurveyLog q bad ++ [.surveyPrompt q ans], some false) := by
  induction bad with
  | nil => simp [runSurvey, badSurveyLog, answersNo_not_yes ans hans, hans]
  | cons b r ih =>
    have hb := hbad b (by simp)
    have hr : ∀ x ∈ r, answersYes x = false ∧ answersNo x = false :=
      fun x hx => hbad x (by simp [hx])
    simp [runSurvey, badSurveyLog, hb.1, hb.2, ih hr]

/-- At least one invalid answer leaves the invalid-input message in the
survey output. -/
theorem invalid_mem_badSurveyLog (q : String) (bad : List String) (h : bad ≠ []) :
    LogLine.invalidInput ∈ badSurveyLog q bad := by
  cases bad with
  | nil => exact absurd rfl h
  | cons b r => simp [badSurveyLog]

/-- Claim C6: an interactive update (no `--yes`) answered `n` or `no` (after
any number of invalid answers, each of which re-prompts with the literal
invalid-input message) prints `Skipping workload "NAME"`, issues no Create or
Update request, and returns success. -/
theorem c6_consent_rejection (o : WorkloadApplyOptions) (fileW : Workload)
    (cl : Cluster) (cur : Workload) (bad : List String) (ans : String)
    (hf : o.filePath = "") (hn : o.name ≠ "") (hns : o.nsVal ≠ "")
    (hget : cl.getFails = false) (hcur : cl.current = some cur)
    (hdr : o.dryRun = false) (hlp : o.localPath = "")
    (hyes : o.yes = false)
    (hprop : proposedWorkload o fileW (some cur) cl.publishedRef o.name o.nsVal ≠ cur)
    (hbad : ∀ b ∈ bad, answersYes b = false ∧ answersNo b = false)
    (hans : answersNo ans = true) :
    (execApply o fileW true cl (bad ++ [ans])).err = none ∧
    LogLine.skipping o.name ∈ (execApply o fileW true cl (bad ++ [ans])).log ∧
    (LogLine.skipping o.name).render = "Skipping workload \"" ++ o.name ++ "\"" ∧
    (∀ w, Request.createReq w ∉ (execApply o fileW true cl (bad ++ [ans])).reqs ∧
          Request.updateReq w ∉ (execApply o fileW true cl (bad ++ [ans])).reqs) ∧
    (bad ≠ [] → LogLine.invalidInput ∈ (execApply o fileW true cl (bad ++ [ans])).log ∧
      LogLine.invalidInput.render = "invalid input (not y, n, yes, or no)") := by
  rw [execApply_path_existing o fileW true cl (bad ++ [ans]) cur hf hn hns hget hcur hdr hlp]
  have hsp : shouldPrint o := Or.inr hyes
  have hsurvey := runSurvey_reject (updatePromptQ o.name) bad ans hbad hans
  refine ⟨?_, ?_, ?_, ?_, ?_⟩ <;>
    simp [stageSubmit, hsp, hyes, hprop, hsurvey, LogLine.render]
  intro hne
  exact invalid_mem_badSurveyLog (updatePromptQ o.name) bad hne

/-- Claim C6 witness: answering `m` (invalid, re-prompted) then `n` to an
update that would change the workload type of the git-sourced fixture. -/
theorem c6_witness :
    (execApply { exOpts with yes := false, gitRepo := "my-repo.git", gitBranch := "main" }
        emptyWorkload true exCl (["m"] ++ ["n"])).err = none ∧
    LogLine.skipping
        ({ exOpts with yes := false, gitRepo := "my-repo.git", gitBranch := "main" } :
          WorkloadApplyOptions).name ∈
      (execApply { exOpts with yes := false, gitRepo := "my-repo.git", gitBranch := "main" }
        emptyWorkload true exCl (["m"] ++ ["n"])).log ∧
    (LogLine.skipping
        ({ exOpts with yes := false, gitRepo := "my-repo.git", gitBranch := "main" } :
          WorkloadApplyOptions).name).render =
      "Skipping workload \"" ++
        ({ exOpts with yes := false, gitRepo := "my-repo.git", gitBranch := "main" } :
          WorkloadApplyOptions).name ++ "\"" ∧
    (∀ w, Request.createReq w ∉
        (execApply { exOpts with yes := false, gitRepo := "my-repo.git", gitBranch := "main" }
          emptyWorkload true exCl (["m"] ++ ["n"])).reqs ∧
      Request.updateReq w ∉
        (execApply { exOpts with yes := false, gitRepo := "my-repo.git", gitBranch := "main" }
          emptyWorkload true exCl (["m"] ++ ["n"])).reqs) ∧
    ((["m"] : List String) ≠ [] →
      LogLine.invalidInput ∈
        (execApply { exOpts with yes := false, gitRepo := "my-repo.git", gitBranch := "main" }
          emptyWorkload true exCl (["m"] ++ ["n"])).log ∧
      LogLine.invalidInput.render = "invalid input (not y, n, yes, or no)") :=
  c6_consent_rejection { exOpts with yes := false, gitRepo := "my-repo.git", gitBranch := "main" }
    emptyWorkload exCl exCur ["m"] "n" (by decide) (by decide) (by decide) (by decide) (by decide)
    (by decide) (by decide) (by decide) (by decide) (by decide) (by decide)

/-! ## Claim C4 -/

/-- The `--params-yaml` fold touches only the params. -/
theorem foldParams_source (ps : List Param) (w : Workload) :
    (ps.foldl (fun acc p => { acc with params := setParam acc.params p }) w).source = w.source := by
  induction ps generalizing w with
  | nil => rfl
  | cons p r ih => simpa using ih { w with params := setParam w.params p }

/-- LSP annotation management touches only the annotations. -/
theorem manageLSPAnnFor_params (o : WorkloadApplyOptions) (fileW : Workload)
    (current : Option Workload) (ref : String) (w : Workload) :
    (manageLSPAnnFor o fileW current ref w).params = w.params := by
  unfold manageLSPAnnFor
  split
  · rfl
  · split
    · split <;> rfl
    · rfl

/-- LSP annotation management touches neither the source. -/
theorem manageLSPAnnFor_source (o : WorkloadApplyOptions) (fileW : Workload)
    (current : Option Workload) (ref : String) (w : Workload) :
    (manageLSPAnnFor o fileW current ref w).source = w.source := by
  unfold manageLSPAnnFor
  split
  · rfl
  · split
    · split <;> rfl
    · rfl

/-- Publishing touches only the source. -/
theorem publishLocalSource_params (o : WorkloadApplyOptions) (ref : String) (w : Workload) :
    (publishLocalSource o ref w).params = w.params := by
  unfold publishLocalSource
  split <;> rfl

/-- With the dedicated Maven flags present, flag application overwrites the
`maven` param with the composed value. -/
theorem applyOptions_params_maven (o : WorkloadApplyOptions) (w : Workload)
    (hm : mavenFlagsPresent o) :
    (applyOptionsToWorkload o w).1.params =
      setParam (o.paramsYaml.foldl (fun acc p => { acc with params := setParam acc.params p }) w).params
        ⟨"maven", .maven (composedMaven o (baseMavenOf
          (o.paramsYaml.foldl (fun acc p => { acc with params := setParam acc.params p }) w)))⟩ := by
  simp only [applyOptionsToWorkload, hm, ite_true]
  split <;> split <;> rfl

theorem proposed_maven_param (o : WorkloadApplyOptions) (fileW : Workload)
    (current : Option Workload) (ref finalName finalNs : String)
    (ha : o.mavenArtifact ≠ "") (hvv : o.mavenVersion ≠ "")
    (hgr : o.mavenGroup ≠ "") (hty : o.mavenType ≠ "") :
    lookupParam (proposedWorkload o fileW current ref finalName finalNs).params "maven" =
      some (.maven ⟨o.mavenArtifact, o.mavenGroup, o.mavenVersion, some o.mavenType⟩) := by
  have hm : mavenFlagsPresent o := Or.inl ha
  unfold proposedWorkload
  rw [manageLSPAnnFor_params, publishLocalSource_params,
    applyOptions_params_maven o _ hm]
  have hl := lookupParam_setParam_self
    (o.paramsYaml.foldl (fun acc p => { acc with params := setParam acc.params p })
      (proposedWorkloadBase o fileW current finalName finalNs)).params
    ⟨"maven", .maven (composedMaven o (baseMavenOf
      (o.paramsYaml.foldl (fun acc p => { acc with params := setParam acc.params p })
        (proposedWorkloadBase o fileW current finalName finalNs))))⟩
  simpa [composedMaven, ha, hvv, hgr, hty] using hl

/-- Claim C4: when both the dedicated Maven flags and a `maven` entry via
`--params-yaml` are present, the resulting workload's `maven` param equals the
value composed from the dedicated flags and the Maven-overwrite notice is
emitted. -/
theorem c4_maven_flags_override (o : WorkloadApplyOptions) (fileW : Workload)
    (cl : Cluster) (console : List String)
    (hf : o.filePath = "") (hn : o.name ≠ "") (hns : o.nsVal ≠ "")
    (hget : cl.getFails = false) (hcur : cl.current = none) (hnse : cl.nsExists = true)
    (hdr : o.dryRun = false) (hlp : o.localPath = "")
    (hyes : o.yes = true) (hout : o.output = "") (hcf : cl.createFails = false)
    (hw : o.wait = false) (htl : o.tail = false) (hts : o.tailTimestamps = false)
    (ha : o.mavenArtifact ≠ "") (hvv : o.mavenVersion ≠ "")
    (hgr : o.mavenGroup ≠ "") (hty : o.mavenType ≠ "")
    (hyaml : o.paramsYaml.any (fun p => p.pname == "maven") = true) :
    (execApply o fileW true cl console).err = none ∧
    LogLine.mavenNotice ∈ (execApply o fileW true cl console).log ∧
    LogLine.mavenNotice.render =
      "NOTICE: Maven configuration flags have overwritten values provided by \"--params-yaml\"." ∧
    ∀ w, Request.createReq w ∈ (execApply o fileW true cl console).reqs →
      lookupParam w.params "maven" =
        some (.maven ⟨o.mavenArtifact, o.mavenGroup, o.mavenVersion, some o.mavenType⟩) := by
  rw [execApply_path_create o fileW true cl console hf hn hns hget hcur hnse hdr hlp]
  have hsp : shouldPrint o := Or.inl hout
  have hm : mavenFlagsPresent o := Or.inl ha
  have hnote : mavenNoticeNeeded o fileW none o.name o.nsVal = true := by
    unfold mavenNoticeNeeded applyOptionsToWorkload
    simp [hm, hyaml]
  have hmp := proposed_maven_param o fileW none cl.publishedRef o.name o.nsVal ha hvv hgr hty
  simp [stageSubmit, hsp, hyes, hcf, hnote, stageWait, hw, htl, hts, stageOutput, hout,
    LogLine.render, hmp]

/-- Claim C4 witness: all four Maven flags together with a `--params-yaml`
maven entry on a fresh create. -/
theorem c4_witness :
    (execApply exOptsC4 emptyWorkload true exClCreate []).err = none ∧
    LogLine.mavenNotice ∈ (execApply exOptsC4 emptyWorkload true exClCreate []).log ∧
    LogLine.mavenNotice.render =
      "NOTICE: Maven configuration flags have overwritten values provided by \"--params-yaml\"." ∧
    ∀ w, Request.createReq w ∈ (execApply exOptsC4 emptyWorkload true exClCreate []).reqs →
      lookupParam w.params "maven" =
        some (.maven ⟨exOptsC4.mavenArtifact, exOptsC4.mavenGroup, exOptsC4.mavenVersion,
          some exOptsC4.mavenType⟩) :=
  c4_maven_flags_override exOptsC4 emptyWorkload exClCreate [] (by decide) (by decide) (by decide)
    (by decide) (by decide) (by decide) (by decide) (by decide) (by decide) (by decide) (by decide)
    (by decide) (by decide) (by decide) (by decide) (by decide) (by decide) (by decide) (by decide)

/-! ## Claim C1 -/

/-- When every event's condition timestamps are at most the snapshot's `Ready`
transition time, no event satisfies the status-change worker. -/
theorem statusChange_any_false (cur : Workload) (c : WCondition)
    (hc : readyCondOf cur = some c) (events : List Workload)
    (hev : ∀ e ∈ events, ∀ oc ∈ e.conds, oc.lastTransitionTime ≤ c.lastTransitionTime) :
    events.any (fun e => statusChangeSatisfied cur e) = false := by
  rw [List.any_eq_false]
  intro e he
  have h1 : statusChangeSatisfied cur e =
      e.conds.any (fun oc => oc.condStatus == "True" &&
        decide (c.lastTransitionTime < oc.lastTransitionTime)) := by
    unfold statusChangeSatisfied
    rw [hc]
  rw [Bool.not_eq_true, h1, List.any_eq_false]
  intro oc hoc
  have hle := hev e he oc hoc
  simp [Nat.not_lt.mpr hle]

/-- Claim C1: applying with `--wait` to an existing workload runs the
status-change race before the readiness worker is armed; with a pre-existing
`Ready=True` condition whose transition time never advances past the
pre-submit snapshot, the wait fails with the message prefixed
`Error waiting for status change: ` and no readiness verdict is ever
produced. -/
theorem c1_status_change_before_ready (o : WorkloadApplyOptions) (fileW : Workload)
    (cl : Cluster) (console : List String) (cur : Workload) (c : WCondition)
    (hf : o.filePath = "") (hn : o.name ≠ "") (hns : o.nsVal ≠ "")
    (hget : cl.getFails = false) (hcur : cl.current = some cur)
    (hdr : o.dryRun = false) (hlp : o.localPath = "")
    (hyes : o.yes = true) (hout : o.output = "") (hwait : o.wait = true)
    (hconf : cl.updateConflict = false) (hupf : cl.updateFails = false)
    (hwf : cl.watcherFails = false)
    (hprop : proposedWorkload o fileW (some cur) cl.publishedRef o.name o.nsVal ≠ cur)
    (hc : readyCondOf cur = some c)
    (hev : ∀ e ∈ cl.events, ∀ oc ∈ e.conds, oc.lastTransitionTime ≤ c.lastTransitionTime) :
    (execApply o fileW true cl console).err =
      some (.message (statusChangeErrHead ++ timeoutMsg (effTimeout o) o.name)) ∧
    statusChangeErrHead = "Error waiting for status change: " ∧
    LogLine.readyPrompt o.name ∉ (execApply o fileW true cl console).log ∧
    (∀ s, LogLine.waitErrReady s ∉ (execApply o fileW true cl console).log) := by
  rw [execApply_path_existing o fileW true cl console cur hf hn hns hget hcur hdr hlp]
  have hsp : shouldPrint o := Or.inl hout
  have hany := statusChange_any_false cur c hc cl.events hev
  by_cases hnote : mavenNoticeNeeded o fileW (some cur) o.name o.nsVal = true
  · simp [stageSubmit, hsp, hyes, hprop, hconf, hupf, hnote, stageWait, hwait,
      raceStatusChange, hwf, hany, hout, statusChangeErrHead]
  · simp at hnote
    simp [stageSubmit, hsp, hyes, hprop, hconf, hupf, hnote, stageWait, hwait,
      raceStatusChange, hwf, hany, hout, statusChangeErrHead]

/-- Claim C1 witness: an update adding a git source to the ready fixture,
watched through a single stale `Ready=True` event with an unchanged
transition time. -/
theorem c1_witness :
    (execApply exOptsC1 emptyWorkload true exClC1 []).err =
      some (.message (statusChangeErrHead ++ timeoutMsg (effTimeout exOptsC1) exOptsC1.name)) ∧
    statusChangeErrHead = "Error waiting for status change: " ∧
    LogLine.readyPrompt exOptsC1.name ∉ (execApply exOptsC1 emptyWorkload true exClC1 []).log ∧
    (∀ s, LogLine.waitErrReady s ∉ (execApply exOptsC1 emptyWorkload true exClC1 []).log) :=
  c1_status_change_before_ready exOptsC1 emptyWorkload exClC1 [] exCurReady exCondC1
    (by decide) (by decide) (by decide) (by decide) (by decide) (by decide) (by decide)
    (by decide) (by decide) (by decide) (by decide) (by decide) (by decide) (by decide)
    (by decide) (by decide)

/-! ## Claim C8 -/

/-- Claim C8: when the submission succeeded but the readiness race fails, the
command returns the wait error (non-zero path) iff `--output` is unset; with
`--output` set the wait error is still reported, the workload is refetched
and the serialized resource printed, and the command succeeds. -/
theorem c8_wait_failure_output (o : WorkloadApplyOptions) (fileW : Workload)
    (cl : Cluster) (console : List String)
    (hf : o.filePath = "") (hn : o.name ≠ "") (hns : o.nsVal ≠ "")
    (hget : cl.getFails = false) (hcur : cl.current = none) (hnse : cl.nsExists = true)
    (hdr : o.dryRun = false) (hlp : o.localPath = "")
    (hyes : o.yes = true) (hwait : o.wait = true) (hcf : cl.createFails = false)
    (hwf : cl.watcherFails = false) (hrv : readyVerdictOf cl.events = none) :
    (o.output = "" →
      (execApply o fileW true cl console).err =
        some (.message (readyCondErrHead ++ timeoutMsg o.waitTimeout o.name)) ∧
      ∀ w, LogLine.serialized w ∉ (execApply o fileW true cl console).log) ∧
    (o.output ≠ "" →
      (execApply o fileW true cl console).err = none ∧
      LogLine.serialized cl.refetched ∈ (execApply o fileW true cl console).log ∧
      LogLine.waitErrReady (readyCondErrHead ++ timeoutMsg o.waitTimeout o.name) ∈
        (execApply o fileW true cl console).log ∧
      (execApply o fileW true cl console).reqs =
        [Request.getWorkload o.nsVal o.name,
         Request.createReq (proposedWorkload o fileW none cl.publishedRef o.name o.nsVal),
         Request.getWorkload o.nsVal o.name]) := by
  rw [execApply_path_create o fileW true cl console hf hn hns hget hcur hnse hdr hlp]
  constructor
  · intro hout
    have hsp : shouldPrint o := Or.inl hout
    by_cases hnote : mavenNoticeNeeded o fileW none o.name o.nsVal = true
    · simp [stageSubmit, hsp, hyes, hcf, hnote, stageWait, hwait, stageWaitReady,
        raceReady, hwf, hrv, hout]
    · simp at hnote
      simp [stageSubmit, hsp, hyes, hcf, hnote, stageWait, hwait, stageWaitReady,
        raceReady, hwf, hrv, hout]
  · intro hout
    have hnsp : ¬ shouldPrint o := by simp [shouldPrint, hout, hyes]
    simp [stageSubmit, hnsp, hcf, stageWait, hwait, stageWaitReady, raceReady, hwf, hrv,
      stageOutput, hout]

/-- Claim C8 witness: a waited create with `--output yaml` whose watch stream
yields no ready verdict — the wait error is reported but the refetched
resource is still printed and the run succeeds. -/
theorem c8_witness :
    (exOptsC8.output = "" →
      (execApply exOptsC8 emptyWorkload true exClCreate []).err =
        some (.message (readyCondErrHead ++ timeoutMsg exOptsC8.waitTimeout exOptsC8.name)) ∧
      ∀ w, LogLine.serialized w ∉ (execApply exOptsC8 emptyWorkload true exClCreate []).log) ∧
    (exOptsC8.output ≠ "" →
      (execApply exOptsC8 emptyWorkload true exClCreate []).err = none ∧
      LogLine.serialized exClCreate.refetched ∈
        (execApply exOptsC8 emptyWorkload true exClCreate []).log ∧
      LogLine.waitErrReady (readyCondErrHead ++
          timeoutMsg exOptsC8.waitTimeout exOptsC8.name) ∈
        (execApply exOptsC8 emptyWorkload true exClCreate []).log ∧
      (execApply exOptsC8 emptyWorkload true exClCreate []).reqs =
        [Request.getWorkload exOptsC8.nsVal exOptsC8.name,
         Request.createReq (proposedWorkload exOptsC8 emptyWorkload none exClCreate.publishedRef
           exOptsC8.name exOptsC8.nsVal),
         Request.getWorkload exOptsC8.nsVal exOptsC8.name]) :=
  c8_wait_failure_output exOptsC8 emptyWorkload exClCreate [] (by decide) (by decide) (by decide)
    (by decide) (by decide) (by decide) (by decide) (by decide) (by decide) (by decide) (by decide)
    (by decide) (by decide)

/-! ## Claim C3 -/

/-- When publishing, the source is the published reference. -/
theorem publishLocalSource_source_lsp (o : WorkloadApplyOptions) (ref : String) (w : Workload)
    (hl : o.localPath ≠ "") :
    (publishLocalSource o ref w).source = some (.image ref) := by
  simp [publishLocalSource, hl]

/-- Without a local path, publishing is the identity on the source. -/
theorem publishLocalSource_source_id (o : WorkloadApplyOptions) (ref : String) (w : Workload)
    (hl : o.localPath = "") :
    (publishLocalSource o ref w).source = w.source := by
  simp [publishLocalSource, hl]

/-- With no git or image flag, flag application keeps the source. -/
theorem applyOptions_source (o : WorkloadApplyOptions) (w : Workload)
    (hg : o.gitRepo = "") (hi : o.imageFlag = "") :
    (applyOptionsToWorkload o w).1.source = w.source := by
  simp only [applyOptionsToWorkload]
  rw [if_neg (show ¬ o.gitRepo ≠ "" by simp [hg]),
    if_neg (show ¬ o.imageFlag ≠ "" by simp [hi])]
  split <;> simp [foldParams_source]

/-- Under the merge strategy with a source-less file document, the base keeps
the cluster copy's source. -/
theorem base_source_some (o : WorkloadApplyOptions) (fileW : Workload) (cur : Workload)
    (finalName finalNs : String)
    (hstrat : o.updateStrategy = mergeUpdateStrategy)
    (hfs : o.filePath ≠ "" → fileW.source = none) :
    (proposedWorkloadBase o fileW (some cur) finalName finalNs).source = cur.source := by
  unfold proposedWorkloadBase
  by_cases hf : o.filePath = ""
  · simp [hstrat, hf, Workload.merge, emptyWorkload]
  · simp [hstrat, hf, Workload.merge, hfs hf]

/-- Publishing through the LSP sets the annotation to the published reference
and rewrites the source to the same reference. -/
theorem proposed_lsp_on (o : WorkloadApplyOptions) (fileW : Workload)
    (current : Option Workload) (ref finalName finalNs : String) (hl : o.localPath ≠ "") :
    lookupKV (proposedWorkload o fileW current ref finalName finalNs).annots lspAnnName
      = some ref ∧
    (proposedWorkload o fileW current ref finalName finalNs).source = some (.image ref) := by
  unfold proposedWorkload manageLSPAnnFor
  simp [hl, lookupKV_setKV_self, publishLocalSource]

/-- The non-LSP branch of the annotation management, as an equation. -/
theorem manageLSPAnnFor_not_lsp (o : WorkloadApplyOptions) (fileW : Workload)
    (current : Option Workload) (ref : String) (w : Workload) (hl : o.localPath = "") :
    manageLSPAnnFor o fileW current ref w =
      match current.bind (fun c => lookupKV c.annots lspAnnName) with
      | some v =>
        if ¬ specifiesSource o fileW ∧ o.updateStrategy = mergeUpdateStrategy then
          { w with annots := setKV w.annots lspAnnName v }
        else { w with annots := removeKV w.annots lspAnnName }
      | none => { w with annots := removeKV w.annots lspAnnName } := by
  unfold manageLSPAnnFor
  rw [if_neg (show ¬ o.localPath ≠ "" by simp [hl])]

/-- Without the LSP, the annotation is stripped whenever the cluster copy had
none, a new source is specified, or the strategy is not merge. -/
theorem proposed_lsp_removed (o : WorkloadApplyOptions) (fileW : Workload)
    (current : Option Workload) (ref finalName finalNs : String) (hl : o.localPath = "")
    (hrem : current.bind (fun c => lookupKV c.annots lspAnnName) = none ∨
            specifiesSource o fileW ∨ o.updateStrategy ≠ mergeUpdateStrategy) :
    lookupKV (proposedWorkload o fileW current ref finalName finalNs).annots lspAnnName
      = none := by
  unfold proposedWorkload
  rw [manageLSPAnnFor_not_lsp o fileW current ref _ hl]
  rcases hbind : current.bind (fun c => lookupKV c.annots lspAnnName) with _ | v
  · simp only [hbind]
    exact lookupKV_removeKV_self _ _
  · have hcond : ¬ (¬ specifiesSource o fileW ∧ o.updateStrategy = mergeUpdateStrategy) := by
      rcases hrem with h | h | h
      · rw [hbind] at h; cases h
      · exact fun hc => hc.1 h
      · exact fun hc => h hc.2
    simp only [hbind]
    rw [if_neg hcond]
    exact lookupKV_removeKV_self _ _

/-- Without the LSP, an annotation inherited from a cluster copy whose source
was not changed is kept, and the source is still the cluster copy's. -/
theorem proposed_lsp_keep (o : WorkloadApplyOptions) (fileW : Workload) (cur : Workload)
    (ref finalName finalNs v : String) (hl : o.localPath = "")
    (hlook : lookupKV cur.annots lspAnnName = some v)
    (hspec : ¬ specifiesSource o fileW) (hstrat : o.updateStrategy = mergeUpdateStrategy) :
    lookupKV (proposedWorkload o fileW (some cur) ref finalName finalNs).annots lspAnnName
      = some v ∧
    (proposedWorkload o fileW (some cur) ref finalName finalNs).source = cur.source := by
  have hg : o.gitRepo = "" := by
    by_contra h; exact hspec (Or.inl h)
  have hi : o.imageFlag = "" := by
    by_contra h; exact hspec (Or.inr (Or.inl h))
  have hfs : o.filePath ≠ "" → fileW.source = none := by
    intro hf
    rcases hsw : fileW.source with _ | s
    · rfl
    · exact absurd (Or.inr (Or.inr ⟨hf, Or.inl (by simp [hsw])⟩)) hspec
  have hb : (some cur).bind (fun c => lookupKV c.annots lspAnnName) = some v := by
    simpa using hlook
  constructor
  · unfold proposedWorkload
    rw [manageLSPAnnFor_not_lsp o fileW (some cur) ref _ hl]
    simp only [hb]
    rw [if_pos ⟨hspec, hstrat⟩]
    exact lookupKV_setKV_self _ _ _
  · unfold proposedWorkload
    rw [manageLSPAnnFor_not_lsp o fileW (some cur) ref _ hl]
    simp only [hb]
    rw [if_pos ⟨hspec, hstrat⟩]
    show (publishLocalSource o ref ((applyOptionsToWorkload o
      (proposedWorkloadBase o fileW (some cur) finalName finalNs)).1)).source = cur.source
    rw [publishLocalSource_source_id o ref _ hl, applyOptions_source o _ hg hi,
      base_source_some o fileW cur finalName finalNs hstrat hfs]

/-- Claim C3: the submitted resource carries the
`local-source-proxy.apps.tanzu.vmware.com` annotation only when its source is
the LSP-published image (given a consistent cluster copy); switching to the
LSP sets the annotation to the published reference, and a non-LSP source
specified by flags leaves no annotation. -/
theorem c3_lsp_annot_invariant (o : WorkloadApplyOptions) (fileW : Workload)
    (current : Option Workload) (ref finalName finalNs : String)
    (hcur : ∀ cur, current = some cur → lspConsistent cur) :
    lspConsistent (proposedWorkload o fileW current ref finalName finalNs) ∧
    (o.localPath ≠ "" →
      lookupKV (proposedWorkload o fileW current ref finalName finalNs).annots lspAnnName
        = some ref ∧
      (proposedWorkload o fileW current ref finalName finalNs).source = some (.image ref)) ∧
    (o.localPath = "" → o.gitRepo ≠ "" ∨ o.imageFlag ≠ "" →
      lookupKV (proposedWorkload o fileW current ref finalName finalNs).annots lspAnnName
        = none) := by
  refine ⟨?_, ?_, ?_⟩
  · by_cases hl : o.localPath = ""
    · intro v hv
      by_cases hspec : specifiesSource o fileW
      · rw [proposed_lsp_removed o fileW current ref finalName finalNs hl
          (Or.inr (Or.inl hspec))] at hv
        cases hv
      · by_cases hstrat : o.updateStrategy = mergeUpdateStrategy
        · rcases hbind : current.bind (fun c => lookupKV c.annots lspAnnName) with _ | v'
          · rw [proposed_lsp_removed o fileW current ref finalName finalNs hl
              (Or.inl hbind)] at hv
            cases hv
          · rcases current with _ | cur
            · simp at hbind
            · have hlook : lookupKV cur.annots lspAnnName = some v' := by
                simpa using hbind
              obtain ⟨h1, h2⟩ := proposed_lsp_keep o fileW cur ref finalName finalNs v'
                hl hlook hspec hstrat
              rw [h1] at hv
              cases hv
              rw [h2]
              exact hcur cur rfl _ hlook
        · rw [proposed_lsp_removed o fileW current ref finalName finalNs hl
            (Or.inr (Or.inr hstrat))] at hv
          cases hv
    · intro v hv
      obtain ⟨h1, h2⟩ := proposed_lsp_on o fileW current ref finalName finalNs hl
      rw [h1] at hv
      cases hv
      exact h2
  · intro hl
    exact proposed_lsp_on o fileW current ref finalName finalNs hl
  · intro hl hsrc
    refine proposed_lsp_removed o fileW current ref finalName finalNs hl (Or.inr (Or.inl ?_))
    rcases hsrc with h | h
    · exact Or.inl h
    · exact Or.inr (Or.inl h)

/-- Claim C3 witness: publishing a local path over the git-sourced fixture
sets the annotation to the published reference. -/
theorem c3_witness :
    lspConsistent (proposedWorkload { exOpts with localPath := "./src" } emptyWorkload none
      ":default-my-workload@sha256:978be" "my-workload" "default") ∧
    (({ exOpts with localPath := "./src" } : WorkloadApplyOptions).localPath ≠ "" →
      lookupKV (proposedWorkload { exOpts with localPath := "./src" } emptyWorkload none
          ":default-my-workload@sha256:978be" "my-workload" "default").annots lspAnnName
        = some ":default-my-workload@sha256:978be" ∧
      (proposedWorkload { exOpts with localPath := "./src" } emptyWorkload none
          ":default-my-workload@sha256:978be" "my-workload" "default").source =
        some (.image ":default-my-workload@sha256:978be")) ∧
    (({ exOpts with localPath := "./src" } : WorkloadApplyOptions).localPath = "" →
      ({ exOpts with localPath := "./src" } : WorkloadApplyOptions).gitRepo ≠ "" ∨
        ({ exOpts with localPath := "./src" } : WorkloadApplyOptions).imageFlag ≠ "" →
      lookupKV (proposedWorkload { exOpts with localPath := "./src" } emptyWorkload none
          ":default-my-workload@sha256:978be" "my-workload" "default").annots lspAnnName
        = none) :=
  c3_lsp_annot_invariant { exOpts with localPath := "./src" } emptyWorkload none
    ":default-my-workload@sha256:978be" "my-workload" "default"
    (fun cur h => by cases h)

/-! ## Claim C9 -/

/-- The survey loop never prints the strategy-change warning. -/
theorem runSurvey_no_warn (q : String) (l : List String) :
    LogLine.strategyWarning ∉ (runSurvey q l).1 := by
  induction l with
  | nil => simp [runSurvey]
  | cons a r ih =>
    by_cases h1 : answersYes a = true
    · simp [runSurvey, h1]
    · by_cases h2 : answersNo a = true
      · simp [runSurvey, h1, h2]
      · simp [runSurvey, h1, h2, ih]

/-- The output stage never prints the strategy-change warning. -/
theorem stageOutput_no_warn (o : WorkloadApplyOptions) (cl : Cluster) (n ns : String)
    (log : List LogLine) (reqs : List Request) (h : LogLine.strategyWarning ∉ log) :
    LogLine.strategyWarning ∉ (stageOutput o cl n ns log reqs).log := by
  unfold stageOutput
  split <;> simp_all

/-- The readiness stage never prints the strategy-change warning. -/
theorem stageWaitReady_no_warn (o : WorkloadApplyOptions) (cl : Cluster) (n ns : String)
    (log : List LogLine) (reqs : List Request) (h : LogLine.strategyWarning ∉ log) :
    LogLine.strategyWarning ∉ (stageWaitReady o cl n ns log reqs).log := by
  unfold stageWaitReady
  repeat' split
  all_goals first
    | (apply stageOutput_no_warn; simp_all)
    | simp_all

/-- The wait stage never prints the strategy-change warning. -/
theorem stageWait_no_warn (o : WorkloadApplyOptions) (cl : Cluster) (n ns : String)
    (current : Option Workload) (log : List LogLine) (reqs : List Request)
    (h : LogLine.strategyWarning ∉ log) :
    LogLine.strategyWarning ∉ (stageWait o cl n ns current log reqs).log := by
  unfold stageWait
  repeat' split
  all_goals first
    | (apply stageWaitReady_no_warn; simp_all)
    | (apply stageOutput_no_warn; simp_all)
    | simp_all

/-- The submit stage never prints the strategy-change warning. -/
theorem stageSubmit_no_warn (o : WorkloadApplyOptions) (fileW : Workload) (cl : Cluster)
    (console : List String) (n ns : String) (current : Option Workload)
    (reqs : List Request) :
    LogLine.strategyWarning ∉ (stageSubmit o fileW cl console n ns current reqs).log := by
  have hnote : ∀ b : Bool,
      LogLine.strategyWarning ∉ (if b = true then [LogLine.mavenNotice] else []) := by
    intro b; cases b <;> simp
  have hdec1 : ∀ q, LogLine.strategyWarning ∉
      (if o.yes = true then (([], some true) : List LogLine × Option Bool)
       else runSurvey q console).1 := by
    intro q; split
    · simp
    · exact runSurvey_no_warn q console
  unfold stageSubmit
  rcases hd1 : (if o.yes = true then (([], some true) : List LogLine × Option Bool)
      else runSurvey createPromptQ console).2 with _ | d1 <;>
    rcases hd2 : (if o.yes = true then (([], some true) : List LogLine × Option Bool)
        else runSurvey (updatePromptQ n) console).2 with _ | d2 <;>
      simp only [hd1, hd2] <;>
        repeat' split
  all_goals first
    | (apply stageWait_no_warn; simp [hnote, hdec1, runSurvey_no_warn])
    | simp [hnote, hdec1, runSurvey_no_warn]

/-- Membership in the log of a conditional result splits pointwise. -/
theorem warn_not_mem_ite_rec (c : Prop) [Decidable c] (r1 r2 : ExecResult)
    (h1 : LogLine.strategyWarning ∉ r1.log) (h2 : LogLine.strategyWarning ∉ r2.log) :
    LogLine.strategyWarning ∉ (if c then r1 else r2).log := by
  split <;> assumption

/-- `Exec` minus the warning never prints the strategy-change warning. -/
theorem execApplyCore_no_warn (o : WorkloadApplyOptions) (fileW : Workload) (ok : Bool)
    (cl : Cluster) (console : List String) :
    LogLine.strategyWarning ∉ (execApplyCore o fileW ok cl console).log := by
  unfold execApplyCore stageAfterGet
  repeat' split
  all_goals repeat' first
    | apply stageSubmit_no_warn
    | apply warn_not_mem_ite_rec
  all_goals simp

/-- Claim C9, counterexample: with `--file` combined with `--output` and
`--yes`, prompts are suppressed (`shouldPrint` is false) and the advisory
notice is NOT emitted, contradicting "for every invocation in which the
--file flag is used ... emitted exactly once"; the same invocation without
`--output` does emit it once. -/
theorem c9_counterexample :
    LogLine.strategyWarning ∉
      (execApply { exOpts with filePath := "workload.yaml", output := "yaml" } exFileW true
        exCl []).log ∧
    (execApply { exOpts with filePath := "workload.yaml" } exFileW true exCl
        []).log.count LogLine.strategyWarning = 1 := by
  constructor
  · decide
  · decide

/-- Claim C9 (amended): the advisory notice about the future update-strategy
default change is emitted exactly once when `--file` is used and prompts are
shown (`--output` not combined with `--yes`), never otherwise; its emission
has no effect on the computed resource or the issued requests (the run minus
the notice produces identical requests and error). -/
theorem c9_file_warning_once (o : WorkloadApplyOptions) (fileW : Workload) (ok : Bool)
    (cl : Cluster) (console : List String) :
    ((o.filePath ≠ "" ∧ shouldPrint o) →
      (execApply o fileW ok cl console).log.count LogLine.strategyWarning = 1) ∧
    (¬ (o.filePath ≠ "" ∧ shouldPrint o) →
      (execApply o fileW ok cl console).log.count LogLine.strategyWarning = 0) ∧
    (execApply o fileW ok cl console).reqs = (execApplyCore o fileW ok cl console).reqs ∧
    (execApply o fileW ok cl console).err = (execApplyCore o fileW ok cl console).err := by
  have hcore : (execApplyCore o fileW ok cl console).log.count LogLine.strategyWarning = 0 :=
    List.count_eq_zero.mpr (execApplyCore_no_warn o fileW ok cl console)
  refine ⟨?_, ?_, rfl, rfl⟩
  · intro h
    simp [execApply, h, List.count_append, hcore]
  · intro h
    simp [execApply, h, List.count_append, hcore]

/-- Claim C9 witness: applying from a file without `--output` emits the
notice exactly once and leaves requests and error unchanged relative to the
warning-free core. -/
theorem c9_witness :
    ((({ exOpts with filePath := "workload.yaml" } : WorkloadApplyOptions).filePath ≠ "" ∧
        shouldPrint { exOpts with filePath := "workload.yaml" }) →
      (execApply { exOpts with filePath := "workload.yaml" } exFileW true exCl
          []).log.count LogLine.strategyWarning = 1) ∧
    (¬ (({ exOpts with filePath := "workload.yaml" } : WorkloadApplyOptions).filePath ≠ "" ∧
        shouldPrint { exOpts with filePath := "workload.yaml" }) →
      (execApply { exOpts with filePath := "workload.yaml" } exFileW true exCl
          []).log.count LogLine.strategyWarning = 0) ∧
    (execApply { exOpts with filePath := "workload.yaml" } exFileW true exCl []).reqs =
      (execApplyCore { exOpts with filePath := "workload.yaml" } exFileW true exCl []).reqs ∧
    (execApply { exOpts with filePath := "workload.yaml" } exFileW true exCl []).err =
      (execApplyCore { exOpts with filePath := "workload.yaml" } exFileW true exCl []).err :=
  c9_file_warning_once { exOpts with filePath := "workload.yaml" } exFileW true exCl []

end ApplyEngine
